import Mathlib

/-!
# Verification of the drone-log-analyzer core

Shallow embedding of the repository's two core modules:

* `anomaly_detection.py` — the three anomaly detectors
  (`detect_voltage_sag`, `detect_vibration_spikes`, `detect_motor_imbalance`)
  and the orchestrator `analyze_flight`;
* `bin_extraction.py` — the log decoder `read_bin_file`.

Python floats are modelled as rationals (`ℚ`); the only irrational
operation in the source, the square root used for the vibration z-score and
the vibration magnitude, is modelled with `Real.sqrt` (for the magnitude
channel) and by an equivalent square-free rational test (for the z-score,
with the equivalence proved in `zGtB_iff_div_sqrt_gt`).  Python dictionaries
are modelled as association lists with string keys.
-/

namespace DroneLog

/-- Arithmetic mean of a list of rationals (models `np.mean`; for the empty
list Lean's total division yields `0 / 0 = 0`, but every use in the source is
guarded by a non-emptiness check). -/
def mean (l : List ℚ) : ℚ := l.sum / l.length

/-- Population variance: the mean of the squared deviations from the mean.
`np.std` is the square root of this quantity; the source only ever compares
the standard deviation with zero and divides by it, and both uses are
expressed below directly through `popVar` (std = 0 iff popVar = 0, and the
division is encoded by `zGtB`). -/
def popVar (l : List ℚ) : ℚ := ((l.map (fun x => (x - mean l) ^ 2)).sum) / l.length

/-- `detect_voltage_sag` from `anomaly_detection.py`: return the number of
samples strictly below `threshold` together with the list of those samples;
an empty channel short-circuits to `(0, [])`. -/
def detect_voltage_sag (voltage_data : List ℚ) (threshold : ℚ) : ℕ × List ℚ :=
  if voltage_data = [] then (0, [])
  else
    let sag_events := voltage_data.filter (fun v => decide (v < threshold))
    (sag_events.length, sag_events)

/-- The z-score test `(v - mean) / std > z_threshold` of
`detect_vibration_spikes`, where `std = Real.sqrt var`, encoded over `ℚ`
without a real square root (`d` stands for `v - mean`).  The encoding is
proved equivalent to the real-valued test in `zGtB_iff_div_sqrt_gt`. -/
def zGtB (d t var : ℚ) : Bool :=
  if 0 ≤ t then decide (0 < d) && decide (t ^ 2 * var < d ^ 2)
  else decide (0 ≤ d) || decide (d ^ 2 < t ^ 2 * var)

/-- `detect_vibration_spikes` from `anomaly_detection.py`: with fewer than 2
samples return `(0, [])`; with zero variance (equivalently zero standard
deviation) return `(0, [])`; otherwise return the samples whose z-score
against the population mean and standard deviation strictly exceeds
`z_threshold`, with their count. -/
def detect_vibration_spikes (vibration_data : List ℚ) (z_threshold : ℚ) : ℕ × List ℚ :=
  if vibration_data.length < 2 then (0, [])
  else
    let m := mean vibration_data
    let var := popVar vibration_data
    if var = 0 then (0, [])
    else
      let spikes := vibration_data.filter (fun vib => zGtB (vib - m) z_threshold var)
      (spikes.length, spikes)

/-- The `motor_avgs` accumulation loop of `detect_motor_imbalance`:
`for i, motor in enumerate(motor_outputs): if motor:
motor_avgs.append((i+1, np.mean(motor)))`.  The first argument is the
running `enumerate` index. -/
def motorAvgs : ℕ → List (List ℚ) → List (ℕ × ℚ)
  | _, [] => []
  | i, motor :: rest =>
    if motor = [] then motorAvgs (i + 1) rest
    else (i + 1, mean motor) :: motorAvgs (i + 1) rest

/-- Round to the nearest integer, ties to even — the rounding used by
CPython's fixed-point float formatting. -/
def roundHalfEven (q : ℚ) : ℤ :=
  if q - ⌊q⌋ < 1 / 2 then ⌊q⌋
  else if 1 / 2 < q - ⌊q⌋ then ⌊q⌋ + 1
  else if ⌊q⌋ % 2 = 0 then ⌊q⌋ else ⌊q⌋ + 1

/-- The Python format specifier `+.1f` applied to a rational: an explicit
sign followed by the value rounded to one decimal place.  (CPython rounds the
binary double nearest to the value; on inputs whose decimal expansion is
exact at this precision — all values arising in the claims — the two agree.) -/
def fmtSigned1 (q : ℚ) : String :=
  let sign := if q < 0 then "-" else "+"
  let n := roundHalfEven (|q| * 10)
  sign ++ toString (n / 10) ++ "." ++ toString (n % 10)

/-- `detect_motor_imbalance` from `anomaly_detection.py`.  Python's
`if not any(motor_outputs)` is true exactly when every channel list is empty,
and `if motor:` keeps the non-empty channels. -/
def detect_motor_imbalance (motor_outputs : List (List ℚ)) (imbalance_threshold : ℚ) :
    Bool × String :=
  if motor_outputs.all (fun m => m.isEmpty) then (false, "No motor data available")
  else
    let motor_avgs := motorAvgs 0 motor_outputs
    if motor_avgs.length < 2 then (false, "Insufficient motor data")
    else
      let overall_avg := mean (motor_avgs.map (fun p => p.2))
      let imbalances := motor_avgs.filterMap (fun p =>
        let deviation_pct := ((p.2 - overall_avg) / overall_avg) * 100
        if imbalance_threshold < |deviation_pct| then
          some ("Motor " ++ toString p.1 ++ " is " ++ fmtSigned1 deviation_pct
            ++ "% from average")
        else none)
      if imbalances.isEmpty then (false, "All motors balanced")
      else (true, String.intercalate "; " imbalances)

/-- Control-flow instrument for `detect_motor_imbalance`: `true` exactly when
the function passes both early returns (so the loop computing
`deviation_pct = ((motor_avg - overall_avg) / overall_avg) * 100` is
executed) while `overall_avg = 0`, i.e. exactly when the source performs a
division by zero. -/
def imbalanceDividesByZero (motor_outputs : List (List ℚ)) : Bool :=
  !(motor_outputs.all (fun m => m.isEmpty)) &&
    decide (2 ≤ (motorAvgs 0 motor_outputs).length) &&
    decide (mean ((motorAvgs 0 motor_outputs).map (fun p => p.2)) = 0)

/-- Python's `min` over a non-empty list, `none` on the empty list (the
source writes `min(xs) if xs else None`). -/
def listMin : List ℚ → Option ℚ
  | [] => none
  | x :: xs => some (xs.foldl min x)

/-- Python's `max` over a non-empty list, `none` on the empty list. -/
def listMax : List ℚ → Option ℚ
  | [] => none
  | x :: xs => some (xs.foldl max x)

/-- The telemetry dictionary produced by `read_bin_file` and consumed by
`analyze_flight` (`analyze_flight` reads only the `battery_voltage`,
`vibration` and `motor_outputs` channels). -/
structure Telemetry where
  battery_voltage : List ℚ
  battery_current : List ℚ
  vibration : List ℚ
  gps_hdop : List ℚ
  motor_outputs : List (List ℚ)
  altitude : List ℚ
  timestamps : List ℚ

/-- A Python value as stored in the result dictionaries of
`analyze_flight`. -/
inductive PyVal : Type where
  | pyBool : Bool → PyVal
  | pyInt : ℕ → PyVal
  | pyFloat : ℚ → PyVal
  | pyStr : String → PyVal
  | pyNone : PyVal
deriving DecidableEq

/-- `analyze_flight` from `anomaly_detection.py`: run the three detectors
with their default thresholds (7.2, 3, 15) and assemble the nested result
dictionary, modelled as an association list keyed by detector name. -/
def analyze_flight (data : Telemetry) : List (String × List (String × PyVal)) :=
  let sag := detect_voltage_sag data.battery_voltage 7.2
  let vib := detect_vibration_spikes data.vibration 3
  let mot := detect_motor_imbalance data.motor_outputs 15
  [("voltage_sag",
    [("detected", PyVal.pyBool (decide (0 < sag.1))),
     ("count", PyVal.pyInt sag.1),
     ("min_voltage",
      match listMin sag.2 with
      | some m => PyVal.pyFloat m
      | none => PyVal.pyNone)]),
   ("vibration_spikes",
    [("detected", PyVal.pyBool (decide (0 < vib.1))),
     ("count", PyVal.pyInt vib.1),
     ("max_vibration",
      match listMax vib.2 with
      | some m => PyVal.pyFloat m
      | none => PyVal.pyNone)]),
   ("motor_imbalance",
    [("detected", PyVal.pyBool mot.1),
     ("message", PyVal.pyStr mot.2)])]

/-- The `results['voltage_sag']` sub-dictionary of `analyze_flight`. -/
def voltage_sag_report (data : Telemetry) : List (String × PyVal) :=
  ((analyze_flight data).lookup "voltage_sag").getD []

/-- The `results['vibration_spikes']` sub-dictionary of `analyze_flight`. -/
def vibration_spikes_report (data : Telemetry) : List (String × PyVal) :=
  ((analyze_flight data).lookup "vibration_spikes").getD []

/-- The `results['motor_imbalance']` sub-dictionary of `analyze_flight`. -/
def motor_imbalance_report (data : Telemetry) : List (String × PyVal) :=
  ((analyze_flight data).lookup "motor_imbalance").getD []

/-- A typed record produced by the pymavlink decoder, one constructor per
recognized message kind (`BAT`, `VIBE`, `GPS`, `RCOU`, `BARO`).  `unknown`
stands for any record for which the decoder yields no recognized typed
message — an unrecognized type identifier or a malformed record (pymavlink
produces no well-typed message for either, so `read_bin_file`'s dispatch
falls through every branch). -/
inductive LogMsg : Type where
  | bat : ℚ → ℚ → ℚ → LogMsg
  | vibe : ℚ → ℚ → ℚ → LogMsg
  | gps : ℚ → LogMsg
  | rcou : ℚ → ℚ → ℚ → ℚ → LogMsg
  | baro : ℚ → LogMsg
  | unknown : LogMsg

/-- The channel dictionary built by `read_bin_file`.  The vibration channel
holds real numbers because its samples are square-root magnitudes. -/
structure BinData where
  battery_voltage : List ℚ
  battery_current : List ℚ
  vibration : List ℝ
  gps_hdop : List ℚ
  motor_outputs : List (List ℚ)
  altitude : List ℚ
  timestamps : List ℚ

/-- The `RCOU` per-channel append `if channel: data['motor_outputs'][i].append(channel)`:
a zero (or absent, which pymavlink surfaces as falsy) channel value is not
appended. -/
def appendIfTruthy (l : List ℚ) (c : ℚ) : List ℚ :=
  if c = 0 then l else l ++ [c]

/-- One iteration of the `while True: msg = mlog.recv_match(...)` loop of
`read_bin_file`: dispatch on the message type and append the derived values
to the matching channels; any other message leaves the data unchanged. -/
noncomputable def stepMsg (d : BinData) (msg : LogMsg) : BinData :=
  match msg with
  | .bat volt curr timeUS =>
    { d with
      battery_voltage := d.battery_voltage ++ [volt],
      battery_current := d.battery_current ++ [curr],
      timestamps := d.timestamps ++ [timeUS / 1000000] }
  | .vibe x y z =>
    { d with
      vibration := d.vibration ++ [Real.sqrt ((x : ℝ) ^ 2 + (y : ℝ) ^ 2 + (z : ℝ) ^ 2)] }
  | .gps hdop => { d with gps_hdop := d.gps_hdop ++ [hdop / 100] }
  | .rcou c1 c2 c3 c4 =>
    { d with motor_outputs := List.zipWith appendIfTruthy d.motor_outputs [c1, c2, c3, c4] }
  | .baro alt => { d with altitude := d.altitude ++ [alt] }
  | .unknown => d

/-- The initial channel dictionary of `read_bin_file` (all channels empty,
four empty motor channels). -/
def emptyBinData : BinData :=
  ⟨[], [], [], [], [[], [], [], []], [], []⟩

/-- `read_bin_file` from `bin_extraction.py`, as a function of the decoded
message stream: fold the dispatch loop over the messages in stream order. -/
noncomputable def read_bin_file (msgs : List LogMsg) : BinData :=
  msgs.foldl stepMsg emptyBinData

/-- The voltage contributed by one message: `msg.Volt` for a `BAT` record,
nothing otherwise. -/
def batVolt : LogMsg → Option ℚ
  | .bat volt _ _ => some volt
  | _ => none

/-- The timestamp contributed by one message: `msg.TimeUS / 1e6` for a `BAT`
record, nothing otherwise. -/
def batTime : LogMsg → Option ℚ
  | .bat _ _ timeUS => some (timeUS / 1000000)
  | _ => none

/-- The vibration magnitude contributed by one message:
`sqrt(VibeX² + VibeY² + VibeZ²)` for a `VIBE` record, nothing otherwise. -/
noncomputable def vibeMag : LogMsg → Option ℝ
  | .vibe x y z => some (Real.sqrt ((x : ℝ) ^ 2 + (y : ℝ) ^ 2 + (z : ℝ) ^ 2))
  | _ => none

/-- The HDOP value contributed by one message: `msg.HDop / 100.0` for a `GPS`
record, nothing otherwise. -/
def gpsHdopVal : LogMsg → Option ℚ
  | .gps hdop => some (hdop / 100)
  | _ => none

/-- The population variance is non-negative, so `np.std` is the square root
of a non-negative quantity. -/
theorem popVar_nonneg (l : List ℚ) : 0 ≤ popVar l := by
  apply div_nonneg
  · apply List.sum_nonneg
    intro x hx
    simp only [List.mem_map] at hx
    obtain ⟨a, _, rfl⟩ := hx
    exact sq_nonneg _
  · exact_mod_cast Nat.zero_le l.length

/-- The standard deviation `Real.sqrt (popVar l)` vanishes exactly when the
variance does, so the source's `std == 0` guard is the `popVar = 0` guard of
`detect_vibration_spikes`. -/
theorem sqrt_popVar_eq_zero_iff (l : List ℚ) :
    Real.sqrt ((popVar l : ℚ) : ℝ) = 0 ↔ popVar l = 0 := by
  rw [Real.sqrt_eq_zero']
  constructor
  · intro h
    have h0 : (0 : ℝ) ≤ ((popVar l : ℚ) : ℝ) := by exact_mod_cast popVar_nonneg l
    exact_mod_cast le_antisymm h h0
  · intro h
    exact_mod_cast le_of_eq h

/-- Correctness of the square-free z-score encoding: for positive variance,
`zGtB d t var` holds exactly when `d / Real.sqrt var > t` holds over the
reals — i.e. `zGtB (v - mean) t var` is the source's test
`(v - mean) / std > z_threshold`. -/
theorem zGtB_iff_div_sqrt_gt (d t var : ℚ) (hv : 0 < var) :
    zGtB d t var = true ↔ (t : ℝ) < (d : ℝ) / Real.sqrt ((var : ℚ) : ℝ) := by
  have hv' : (0 : ℝ) < ((var : ℚ) : ℝ) := by exact_mod_cast hv
  have hs : (0 : ℝ) < Real.sqrt ((var : ℚ) : ℝ) := Real.sqrt_pos.mpr hv'
  have hs2 : Real.sqrt ((var : ℚ) : ℝ) ^ 2 = ((var : ℚ) : ℝ) := Real.sq_sqrt hv'.le
  rw [lt_div_iff₀ hs]
  unfold zGtB
  by_cases ht : 0 ≤ t
  · have ht' : (0 : ℝ) ≤ (t : ℝ) := by exact_mod_cast ht
    simp only [if_pos ht, Bool.and_eq_true, decide_eq_true_eq]
    constructor
    · rintro ⟨h1, h2⟩
      have h1' : (0 : ℝ) < (d : ℝ) := by exact_mod_cast h1
      have h2' : (t : ℝ) ^ 2 * ((var : ℚ) : ℝ) < (d : ℝ) ^ 2 := by exact_mod_cast h2
      nlinarith [mul_nonneg ht' hs.le]
    · intro h
      have hts : (0 : ℝ) ≤ (t : ℝ) * Real.sqrt ((var : ℚ) : ℝ) := mul_nonneg ht' hs.le
      have hd : (0 : ℝ) < (d : ℝ) := lt_of_le_of_lt hts h
      refine ⟨by exact_mod_cast hd, ?_⟩
      have h2 : (t : ℝ) ^ 2 * ((var : ℚ) : ℝ) < (d : ℝ) ^ 2 := by nlinarith
      exact_mod_cast h2
  · push_neg at ht
    have ht' : (t : ℝ) < 0 := by exact_mod_cast ht
    have hts : (t : ℝ) * Real.sqrt ((var : ℚ) : ℝ) < 0 := mul_neg_of_neg_of_pos ht' hs
    simp only [if_neg (not_le.mpr ht), Bool.or_eq_true, decide_eq_true_eq]
    constructor
    · rintro (h | h)
      · have hd : (0 : ℝ) ≤ (d : ℝ) := by exact_mod_cast h
        linarith
      · have h' : (d : ℝ) ^ 2 < (t : ℝ) ^ 2 * ((var : ℚ) : ℝ) := by exact_mod_cast h
        by_cases hd : (0 : ℝ) ≤ (d : ℝ)
        · linarith
        · push_neg at hd
          nlinarith
    · intro h
      by_cases hd : 0 ≤ d
      · exact Or.inl hd
      · refine Or.inr ?_
        push_neg at hd
        have hd' : (d : ℝ) < 0 := by exact_mod_cast hd
        have h2 : (d : ℝ) ^ 2 < (t : ℝ) ^ 2 * ((var : ℚ) : ℝ) := by nlinarith
        exact_mod_cast h2

/-- `listMin` is `none` exactly on the empty list. -/
theorem listMin_eq_none_iff (l : List ℚ) : listMin l = none ↔ l = [] := by
  cases l <;> simp [listMin]

/-- `listMax` is `none` exactly on the empty list. -/
theorem listMax_eq_none_iff (l : List ℚ) : listMax l = none ↔ l = [] := by
  cases l <;> simp [listMax]

/-- A min-fold is bounded by its initial value. -/
theorem foldl_min_le_init (xs : List ℚ) (a : ℚ) : xs.foldl min a ≤ a := by
  induction xs generalizing a with
  | nil => simp
  | cons x xs ih => exact le_trans (ih (min a x)) (min_le_left a x)

/-- A min-fold is bounded by every list element. -/
theorem foldl_min_le_mem (xs : List ℚ) (a : ℚ) : ∀ y ∈ xs, xs.foldl min a ≤ y := by
  induction xs generalizing a with
  | nil => simp
  | cons x xs ih =>
    intro y hy
    rcases List.mem_cons.mp hy with rfl | hy
    · exact le_trans (foldl_min_le_init xs (min a y)) (min_le_right a y)
    · exact ih (min a x) y hy

/-- A min-fold returns its initial value or a list element. -/
theorem foldl_min_mem (xs : List ℚ) (a : ℚ) : xs.foldl min a = a ∨ xs.foldl min a ∈ xs := by
  induction xs generalizing a with
  | nil => simp
  | cons x xs ih =>
    simp only [List.foldl_cons, List.mem_cons]
    rcases ih (min a x) with h | h
    · rcases min_choice a x with hm | hm
      · exact Or.inl (h.trans hm)
      · exact Or.inr (Or.inl (h.trans hm))
    · exact Or.inr (Or.inr h)

/-- The value of `listMin` belongs to the list. -/
theorem listMin_mem {l : List ℚ} {m : ℚ} (h : listMin l = some m) : m ∈ l := by
  cases l with
  | nil => simp [listMin] at h
  | cons x xs =>
    simp only [listMin, Option.some.injEq] at h
    rcases foldl_min_mem xs x with h' | h'
    · rw [← h, h']; exact List.mem_cons_self x xs
    · rw [← h]; exact List.mem_cons_of_mem x h'

/-- The value of `listMin` is a lower bound of the list. -/
theorem listMin_le {l : List ℚ} {m : ℚ} (h : listMin l = some m) : ∀ y ∈ l, m ≤ y := by
  cases l with
  | nil => simp [listMin] at h
  | cons x xs =>
    simp only [listMin, Option.some.injEq] at h
    intro y hy
    rcases List.mem_cons.mp hy with rfl | hy
    · rw [← h]; exact foldl_min_le_init xs y
    · rw [← h]; exact foldl_min_le_mem xs x y hy

/-- `detect_voltage_sag` always returns the filtered sag list with its
length (the empty-channel early return coincides with filtering nothing). -/
theorem detect_voltage_sag_eq (l : List ℚ) (t : ℚ) :
    detect_voltage_sag l t =
      ((l.filter (fun v => decide (v < t))).length, l.filter (fun v => decide (v < t))) := by
  cases l <;> simp [detect_voltage_sag]

/-- The spike count of `detect_vibration_spikes` is the length of its spike
list. -/
theorem detect_vibration_spikes_fst_eq_length (l : List ℚ) (t : ℚ) :
    (detect_vibration_spikes l t).1 = (detect_vibration_spikes l t).2.length := by
  unfold detect_vibration_spikes
  by_cases h1 : l.length < 2
  · simp [h1]
  · by_cases h2 : popVar l = 0 <;> simp [h1, h2]

/-- The length of `motorAvgs` is the number of non-empty motor channels,
independently of the running index. -/
theorem motorAvgs_length (i : ℕ) (ms : List (List ℚ)) :
    (motorAvgs i ms).length = (ms.filter (fun m => decide (m ≠ []))).length := by
  induction ms generalizing i with
  | nil => simp [motorAvgs]
  | cons m rest ih =>
    by_cases hm : m = []
    · simp [motorAvgs, hm, ih]
    · simp [motorAvgs, hm, ih]

/-- The decode loop appends exactly the `BAT` voltages, in stream order. -/
theorem foldl_stepMsg_battery_voltage (msgs : List LogMsg) (d : BinData) :
    (msgs.foldl stepMsg d).battery_voltage = d.battery_voltage ++ msgs.filterMap batVolt := by
  induction msgs generalizing d with
  | nil => simp
  | cons m rest ih =>
    cases m <;> simp [stepMsg, batVolt, ih, List.append_assoc]

/-- The decode loop appends exactly the `VIBE` magnitudes, in stream order. -/
theorem foldl_stepMsg_vibration (msgs : List LogMsg) (d : BinData) :
    (msgs.foldl stepMsg d).vibration = d.vibration ++ msgs.filterMap vibeMag := by
  induction msgs generalizing d with
  | nil => simp
  | cons m rest ih =>
    cases m <;> simp [stepMsg, vibeMag, ih, List.append_assoc]

/-- The decode loop appends exactly the scaled `GPS` HDOP values, in stream
order. -/
theorem foldl_stepMsg_gps_hdop (msgs : List LogMsg) (d : BinData) :
    (msgs.foldl stepMsg d).gps_hdop = d.gps_hdop ++ msgs.filterMap gpsHdopVal := by
  induction msgs generalizing d with
  | nil => simp
  | cons m rest ih =>
    cases m <;> simp [stepMsg, gpsHdopVal, ih, List.append_assoc]

/-- The decode loop appends exactly the `BAT` timestamps (converted to
seconds), in stream order. -/
theorem foldl_stepMsg_timestamps (msgs : List LogMsg) (d : BinData) :
    (msgs.foldl stepMsg d).timestamps = d.timestamps ++ msgs.filterMap batTime := by
  induction msgs generalizing d with
  | nil => simp
  | cons m rest ih =>
    cases m <;> simp [stepMsg, batTime, ih, List.append_assoc]

/-- The `detected` field of the voltage-sag report is the Boolean
`sag_count > 0`. -/
theorem voltage_sag_detected_eq (data : Telemetry) :
    (voltage_sag_report data).lookup "detected" =
      some (PyVal.pyBool (decide (0 < (detect_voltage_sag data.battery_voltage 7.2).1))) := rfl

/-- The `count` field of the voltage-sag report is the sag count. -/
theorem voltage_sag_count_eq (data : Telemetry) :
    (voltage_sag_report data).lookup "count" =
      some (PyVal.pyInt (detect_voltage_sag data.battery_voltage 7.2).1) := rfl

/-- The `min_voltage` field of the voltage-sag report is
`min(sag_values) if sag_values else None`. -/
theorem voltage_sag_min_eq (data : Telemetry) :
    (voltage_sag_report data).lookup "min_voltage" =
      some (match listMin (detect_voltage_sag data.battery_voltage 7.2).2 with
        | some m => PyVal.pyFloat m
        | none => PyVal.pyNone) := rfl

/-- The voltage-sag report has no `message` field. -/
theorem voltage_sag_message_eq (data : Telemetry) :
    (voltage_sag_report data).lookup "message" = none := rfl

/-- The `detected` field of the vibration-spikes report is the Boolean
`vib_count > 0`. -/
theorem vibration_detected_eq (data : Telemetry) :
    (vibration_spikes_report data).lookup "detected" =
      some (PyVal.pyBool (decide (0 < (detect_vibration_spikes data.vibration 3).1))) := rfl

/-- The `count` field of the vibration-spikes report is the spike count. -/
theorem vibration_count_eq (data : Telemetry) :
    (vibration_spikes_report data).lookup "count" =
      some (PyVal.pyInt (detect_vibration_spikes data.vibration 3).1) := rfl

/-- The `max_vibration` field of the vibration-spikes report is
`max(vib_spikes) if vib_spikes else None`. -/
theorem vibration_max_eq (data : Telemetry) :
    (vibration_spikes_report data).lookup "max_vibration" =
      some (match listMax (detect_vibration_spikes data.vibration 3).2 with
        | some m => PyVal.pyFloat m
        | none => PyVal.pyNone) := rfl

/-- The vibration-spikes report has no `message` field. -/
theorem vibration_message_eq (data : Telemetry) :
    (vibration_spikes_report data).lookup "message" = none := rfl

/-- The `detected` field of the motor-imbalance report is the detector's
Boolean verdict. -/
theorem motor_detected_eq (data : Telemetry) :
    (motor_imbalance_report data).lookup "detected" =
      some (PyVal.pyBool (detect_motor_imbalance data.motor_outputs 15).1) := rfl

/-- The `message` field of the motor-imbalance report is the detector's
message string. -/
theorem motor_message_eq (data : Telemetry) :
    (motor_imbalance_report data).lookup "message" =
      some (PyVal.pyStr (detect_motor_imbalance data.motor_outputs 15).2) := rfl

/-- The motor-imbalance report has no `count` field. -/
theorem motor_count_eq (data : Telemetry) :
    (motor_imbalance_report data).lookup "count" = none := rfl

/-- The motor-imbalance report has no `min_voltage` field. -/
theorem motor_min_voltage_eq (data : Telemetry) :
    (motor_imbalance_report data).lookup "min_voltage" = none := rfl

/-- The motor-imbalance report has no `max_vibration` field. -/
theorem motor_max_vibration_eq (data : Telemetry) :
    (motor_imbalance_report data).lookup "max_vibration" = none := rfl

/-- Claim C1 (counterexample): for the vibration channel `[1,1,1,1,100]`
with `z_threshold = 3`, `detect_vibration_spikes` does NOT flag the value
100 — it returns `(0, [])`, not `(1, [100])` as the claim states. -/
theorem C1_counterexample :
    detect_vibration_spikes [1, 1, 1, 1, 100] 3 ≠ (1, [100]) ∧
    detect_vibration_spikes [1, 1, 1, 1, 100] 3 = (0, []) := by
  have h : detect_vibration_spikes [1, 1, 1, 1, 100] 3 = (0, []) := by
    norm_num [detect_vibration_spikes, mean, popVar, zGtB, List.filter]
  exact ⟨by rw [h]; simp, h⟩

/-- Claim C1 (amended): for the vibration channel `[1,1,1,1,100]` the
population mean is 20.8 and the population variance is 1568.16 (standard
deviation 39.6), so the z-score of the value 100 is exactly
`(100 − 20.8) / 39.6 = 2`; at `z_threshold = 3` (indeed at any threshold
≥ 2) no spike is flagged, while a threshold strictly below 2 (e.g. 1.99)
flags exactly the value 100. -/
theorem C1_amended :
    detect_vibration_spikes [1, 1, 1, 1, 100] 3 = (0, []) ∧
    detect_vibration_spikes [1, 1, 1, 1, 100] 2 = (0, []) ∧
    detect_vibration_spikes [1, 1, 1, 1, 100] (199 / 100) = (1, [100]) ∧
    mean [1, 1, 1, 1, 100] = 20.8 ∧
    popVar [1, 1, 1, 1, 100] = 1568.16 ∧
    ((100 : ℝ) - 20.8) / Real.sqrt 1568.16 = 2 := by
  refine ⟨?_, ?_, ?_, ?_, ?_, ?_⟩
  · norm_num [detect_vibration_spikes, mean, popVar, zGtB, List.filter]
  · norm_num [detect_vibration_spikes, mean, popVar, zGtB, List.filter]
  · norm_num [detect_vibration_spikes, mean, popVar, zGtB, List.filter]
  · norm_num [mean]
  · norm_num [popVar, mean]
  · have hs : Real.sqrt 1568.16 = 39.6 := by
      rw [show (1568.16 : ℝ) = 39.6 ^ 2 by norm_num]
      exact Real.sqrt_sq (by norm_num)
    rw [hs]
    norm_num

/-- Claim C3 (counterexample): with two populated motor channels `[[0],[0]]`
(overall average of per-motor means equal to 0) the source passes both early
returns and executes the deviation-percentage division with a zero divisor —
the `overall_avg == 0` case is not guarded. -/
theorem C3_counterexample : imbalanceDividesByZero [[0], [0], [], []] = true := by
  norm_num [imbalanceDividesByZero, motorAvgs, mean]

/-- Claim C3 (amended): the `overall_avg == 0` case of
`detect_motor_imbalance` is NOT guarded: when at least 2 motors have data
and the mean of per-motor means is 0, the deviation-percentage division by
`overall_avg` IS executed (witnessed by `[[0],[0],[],[]]`), and no distinct
error or dedicated report is produced — under the embedding's total
rational division the call falls through to the generic
"All motors balanced" report (the float source silently produces NaN from
`0/0` on this input). -/
theorem C3_amended :
    imbalanceDividesByZero [[0], [0], [], []] = true ∧
    detect_motor_imbalance [[0], [0], [], []] 15 = (false, "All motors balanced") := by
  constructor
  · norm_num [imbalanceDividesByZero, motorAvgs, mean]
  · norm_num [detect_motor_imbalance, motorAvgs, mean, List.filterMap]

/-- Claim C6: for every constant vibration channel (of any length, in
particular any length ≥ 2) and every `z_threshold`, `detect_vibration_spikes`
reports zero spikes — the variance is 0 and the zero-standard-deviation
division is never performed; and any channel with fewer than 2 samples also
yields zero spikes. -/
theorem C6_constant_channel_no_spikes (n : ℕ) (c t : ℚ) (l : List ℚ) :
    detect_vibration_spikes (List.replicate n c) t = (0, []) ∧
    (l.length < 2 → detect_vibration_spikes l t = (0, [])) := by
  constructor
  · by_cases hn : n < 2
    · simp [detect_vibration_spikes, hn]
    · have hn0 : (n : ℚ) ≠ 0 := by
        exact_mod_cast Nat.pos_iff_ne_zero.mp (by omega)
      have hmean : mean (List.replicate n c) = c := by
        unfold mean
        rw [List.sum_replicate, List.length_replicate, nsmul_eq_mul]
        field_simp
      have hvar : popVar (List.replicate n c) = 0 := by
        unfold popVar
        rw [hmean, List.map_replicate]
        simp
      simp [detect_vibration_spikes, hn, hvar]
  · intro h
    simp [detect_vibration_spikes, h]

/-- Witness for C6 at a concrete constant channel of length 5 and a concrete
channel of length 1. -/
theorem C6_witness :
    detect_vibration_spikes (List.replicate 5 (3 : ℚ)) 3 = (0, []) ∧
    detect_vibration_spikes [(4 : ℚ)] 3 = (0, []) :=
  ⟨(C6_constant_channel_no_spikes 5 3 3 [4]).1,
   (C6_constant_channel_no_spikes 5 3 3 [4]).2 (by norm_num)⟩

/-- Claim C7: whenever fewer than 2 of the motor channels are non-empty
(motors with no samples are excluded entirely), `detect_motor_imbalance`
reports `detected = false` with one of its two insufficient-data messages;
with exactly one populated channel the message is
"Insufficient motor data". -/
theorem C7_insufficient_motor_data (motors : List (List ℚ)) (t : ℚ)
    (h : (motors.filter (fun m => decide (m ≠ []))).length < 2) :
    (detect_motor_imbalance motors t).1 = false ∧
    ((detect_motor_imbalance motors t).2 = "No motor data available" ∨
      (detect_motor_imbalance motors t).2 = "Insufficient motor data") := by
  unfold detect_motor_imbalance
  by_cases hall : motors.all (fun m => m.isEmpty) = true
  · simp [hall]
  · have hlen : (motorAvgs 0 motors).length < 2 := by
      rw [motorAvgs_length]
      exact h
    simp [hall, hlen]

/-- Claim C2 (counterexample): with per-motor means `[10,10,10,20]` and
threshold 15, the motor with mean 20 is NOT the only motor in the returned
message: the overall average is 12.5, so motors 1–3 each deviate by −20%
(beyond the 15% threshold) and all four motors are listed. -/
theorem C2_counterexample :
    detect_motor_imbalance [[10], [10], [10], [20]] 15 =
      (true,
        "Motor 1 is -20.0% from average; Motor 2 is -20.0% from average; Motor 3 is -20.0% from average; Motor 4 is +60.0% from average") ∧
    (detect_motor_imbalance [[10], [10], [10], [20]] 15).2 ≠
      "Motor 4 is +60.0% from average" := by
  have h : detect_motor_imbalance [[10], [10], [10], [20]] 15 =
      (true,
        "Motor 1 is -20.0% from average; Motor 2 is -20.0% from average; Motor 3 is -20.0% from average; Motor 4 is +60.0% from average") := by
    norm_num [detect_motor_imbalance, motorAvgs, mean, fmtSigned1, roundHalfEven,
      List.filterMap, String.intercalate]
    decide
  exact ⟨h, by rw [h]; decide⟩

/-- Claim C2 (amended): for four non-empty motor channels with per-motor
means `[10,10,10,20]` and threshold 15, `detect_motor_imbalance` flags ALL
FOUR motors: the overall average of the per-motor means is 12.5, motors 1–3
deviate by −20.0% each and motor 4 by +60.0%, and every deviation exceeds
the 15% threshold, so the message lists all four motors. -/
theorem C2_amended (m1 m2 m3 m4 : List ℚ)
    (h1 : m1 ≠ []) (h2 : m2 ≠ []) (h3 : m3 ≠ []) (h4 : m4 ≠ [])
    (e1 : mean m1 = 10) (e2 : mean m2 = 10) (e3 : mean m3 = 10) (e4 : mean m4 = 20) :
    detect_motor_imbalance [m1, m2, m3, m4] 15 =
      (true,
        "Motor 1 is -20.0% from average; Motor 2 is -20.0% from average; Motor 3 is -20.0% from average; Motor 4 is +60.0% from average") := by
  have hA : motorAvgs 0 [m1, m2, m3, m4] = [(1, 10), (2, 10), (3, 10), (4, 20)] := by
    simp [motorAvgs, h1, h2, h3, h4, e1, e2, e3, e4]
  have hall : ([m1, m2, m3, m4].all (fun m => m.isEmpty)) = false := by
    simp [h1]
  norm_num [detect_motor_imbalance, hall, hA, mean, fmtSigned1, roundHalfEven,
    List.filterMap, String.intercalate]
  decide

/-- Witness for C2 at the concrete channels `[[10],[10],[10],[20]]`. -/
theorem C2_witness :
    detect_motor_imbalance [[10], [10], [10], [20]] 15 =
      (true,
        "Motor 1 is -20.0% from average; Motor 2 is -20.0% from average; Motor 3 is -20.0% from average; Motor 4 is +60.0% from average") :=
  C2_amended [10] [10] [10] [20] (by simp) (by simp) (by simp) (by simp)
    (by norm_num [mean]) (by norm_num [mean]) (by norm_num [mean]) (by norm_num [mean])

/-- Claim C8: the decoder appends exactly one voltage sample per `BAT`
record, in stream order; a stream of N well-formed `BAT` records followed by
one unrecognized/malformed trailing record yields exactly N voltage samples;
and a record the decoder does not recognize leaves every channel unchanged. -/
theorem C8_battery_roundtrip (bats : List (ℚ × ℚ × ℚ)) :
    (read_bin_file ((bats.map (fun b => LogMsg.bat b.1 b.2.1 b.2.2)) ++
        [LogMsg.unknown])).battery_voltage = bats.map (fun b => b.1) ∧
    ((read_bin_file ((bats.map (fun b => LogMsg.bat b.1 b.2.1 b.2.2)) ++
        [LogMsg.unknown])).battery_voltage).length = bats.length ∧
    ∀ d : BinData, stepMsg d LogMsg.unknown = d := by
  have hmap : List.filterMap (batVolt ∘ fun b : ℚ × ℚ × ℚ => LogMsg.bat b.1 b.2.1 b.2.2)
      bats = List.map (fun b => b.1) bats := by
    induction bats with
    | nil => rfl
    | cons b rest ih => simp [batVolt, Function.comp, ih]
  have key : (read_bin_file ((bats.map (fun b => LogMsg.bat b.1 b.2.1 b.2.2)) ++
      [LogMsg.unknown])).battery_voltage = bats.map (fun b => b.1) := by
    unfold read_bin_file
    rw [foldl_stepMsg_battery_voltage]
    simp [emptyBinData, List.filterMap_append, List.filterMap_map, batVolt,
      Function.comp, hmap]
  exact ⟨key, by rw [key]; simp, fun d => rfl⟩

/-- Witness for C8: one `BAT` record followed by one unrecognized record
yields exactly the one voltage sample. -/
theorem C8_witness :
    (read_bin_file [LogMsg.bat 1 2 3, LogMsg.unknown]).battery_voltage = [1] := by
  have h := (C8_battery_roundtrip [(1, 2, 3)]).1
  simpa using h

/-- Claim C9: each channel of the decoded telemetry holds exactly the
per-record derived values, in decode order, with no smoothing or
interpolation: the vibration channel the magnitudes
`sqrt(VibeX² + VibeY² + VibeZ²)`, the HDOP channel the raw values divided by
100, and the timestamps channel the `TimeUS` values divided by 1,000,000. -/
theorem C9_derived_channels (msgs : List LogMsg) :
    (read_bin_file msgs).vibration = msgs.filterMap vibeMag ∧
    (read_bin_file msgs).gps_hdop = msgs.filterMap gpsHdopVal ∧
    (read_bin_file msgs).timestamps = msgs.filterMap batTime := by
  unfold read_bin_file
  refine ⟨?_, ?_, ?_⟩
  · rw [foldl_stepMsg_vibration]
    simp [emptyBinData]
  · rw [foldl_stepMsg_gps_hdop]
    simp [emptyBinData]
  · rw [foldl_stepMsg_timestamps]
    simp [emptyBinData]

/-- Witness for C9: a `VIBE (0,3,4)` record yields magnitude 5, a `GPS 150`
record yields HDOP 1.5, and a `BAT` record at `TimeUS = 2000000` yields
timestamp 2 s. -/
theorem C9_witness :
    (read_bin_file [LogMsg.vibe 0 3 4, LogMsg.gps 150,
        LogMsg.bat 12 5 2000000]).vibration = [5] ∧
    (read_bin_file [LogMsg.vibe 0 3 4, LogMsg.gps 150,
        LogMsg.bat 12 5 2000000]).gps_hdop = [3 / 2] ∧
    (read_bin_file [LogMsg.vibe 0 3 4, LogMsg.gps 150,
        LogMsg.bat 12 5 2000000]).timestamps = [2] := by
  have h := C9_derived_channels [LogMsg.vibe 0 3 4, LogMsg.gps 150, LogMsg.bat 12 5 2000000]
  refine ⟨?_, ?_, ?_⟩
  · rw [h.1]
    simp only [List.filterMap, vibeMag]
    rw [show (((0 : ℚ) : ℝ)) ^ 2 + (((3 : ℚ) : ℝ)) ^ 2 + (((4 : ℚ) : ℝ)) ^ 2 = 5 ^ 2 by
      push_cast; norm_num]
    rw [Real.sqrt_sq (by norm_num)]
  · rw [h.2.1]
    norm_num [gpsHdopVal, List.filterMap]
  · rw [h.2.2]
    norm_num [batTime, List.filterMap]

/-- Claim C4 (counterexample): the `motor_imbalance` entry of the
`analyze_flight` result is present but carries NO integer `count` field (its
only keys are `detected` and `message`), so not every entry is a full
`AnomalyReport` with a count. -/
theorem C4_counterexample :
    ((analyze_flight ⟨[], [], [], [], [[], [], [], []], [], []⟩).lookup
        "motor_imbalance").isSome = true ∧
    (motor_imbalance_report ⟨[], [], [], [], [[], [], [], []], [], []⟩).lookup
        "count" = none :=
  ⟨rfl, rfl⟩

/-- Claim C4 (amended): for every telemetry, the `analyze_flight` result has
exactly the three entries `voltage_sag`, `vibration_spikes` and
`motor_imbalance`; the first two each carry a Boolean `detected`, an integer
`count` and an optional-float extremum (`min_voltage` resp. `max_vibration`,
a float or `None`) and no `message`; the `motor_imbalance` entry carries a
Boolean `detected` and a string `message` only — it has no `count` and no
extremum field. -/
theorem C4_amended (data : Telemetry) :
    ((analyze_flight data).lookup "voltage_sag").isSome = true ∧
    ((analyze_flight data).lookup "vibration_spikes").isSome = true ∧
    ((analyze_flight data).lookup "motor_imbalance").isSome = true ∧
    (∃ b, (voltage_sag_report data).lookup "detected" = some (PyVal.pyBool b)) ∧
    (∃ n, (voltage_sag_report data).lookup "count" = some (PyVal.pyInt n)) ∧
    ((∃ q, (voltage_sag_report data).lookup "min_voltage" = some (PyVal.pyFloat q)) ∨
      (voltage_sag_report data).lookup "min_voltage" = some PyVal.pyNone) ∧
    (voltage_sag_report data).lookup "message" = none ∧
    (∃ b, (vibration_spikes_report data).lookup "detected" = some (PyVal.pyBool b)) ∧
    (∃ n, (vibration_spikes_report data).lookup "count" = some (PyVal.pyInt n)) ∧
    ((∃ q, (vibration_spikes_report data).lookup "max_vibration" = some (PyVal.pyFloat q)) ∨
      (vibration_spikes_report data).lookup "max_vibration" = some PyVal.pyNone) ∧
    (vibration_spikes_report data).lookup "message" = none ∧
    (∃ b, (motor_imbalance_report data).lookup "detected" = some (PyVal.pyBool b)) ∧
    (∃ s, (motor_imbalance_report data).lookup "message" = some (PyVal.pyStr s)) ∧
    (motor_imbalance_report data).lookup "count" = none ∧
    (motor_imbalance_report data).lookup "min_voltage" = none ∧
    (motor_imbalance_report data).lookup "max_vibration" = none := by
  refine ⟨rfl, rfl, rfl, ⟨_, rfl⟩, ⟨_, rfl⟩, ?_, rfl, ⟨_, rfl⟩, ⟨_, rfl⟩, ?_, rfl,
    ⟨_, rfl⟩, ⟨_, rfl⟩, rfl, rfl, rfl⟩
  · rw [voltage_sag_min_eq]
    rcases listMin (detect_voltage_sag data.battery_voltage 7.2).2 with _ | m
    · exact Or.inr rfl
    · exact Or.inl ⟨m, rfl⟩
  · rw [vibration_max_eq]
    rcases listMax (detect_vibration_spikes data.vibration 3).2 with _ | m
    · exact Or.inr rfl
    · exact Or.inl ⟨m, rfl⟩

/-- Claim C5: `detect_voltage_sag` counts exactly the samples strictly below
the threshold; the empty channel gives `(0, [])`; and in the assembled
`voltage_sag` report the `count` field is that count for the default
threshold 7.2, while `min_voltage` is `None` when no sag event occurred and
otherwise is the minimum observed value among the sag events (a member of
the channel, below the threshold, and a lower bound of all below-threshold
samples). -/
theorem C5_voltage_sag_correct (l : List ℚ) (t : ℚ) (data : Telemetry) :
    (detect_voltage_sag l t).1 = l.countP (fun v => decide (v < t)) ∧
    detect_voltage_sag [] t = (0, []) ∧
    (voltage_sag_report data).lookup "count" =
      some (PyVal.pyInt (data.battery_voltage.countP (fun v => decide (v < 7.2)))) ∧
    (data.battery_voltage.countP (fun v => decide (v < 7.2)) = 0 →
      (voltage_sag_report data).lookup "min_voltage" = some PyVal.pyNone) ∧
    (0 < data.battery_voltage.countP (fun v => decide (v < 7.2)) →
      ∃ m, (voltage_sag_report data).lookup "min_voltage" = some (PyVal.pyFloat m) ∧
        m ∈ data.battery_voltage ∧ m < 7.2 ∧
        ∀ v ∈ data.battery_voltage, v < 7.2 → m ≤ v) := by
  have hcount : ∀ (l' : List ℚ) (t' : ℚ),
      (detect_voltage_sag l' t').1 = l'.countP (fun v => decide (v < t')) := by
    intro l' t'
    rw [detect_voltage_sag_eq]
    exact (List.countP_eq_length_filter _ _).symm
  refine ⟨hcount l t, by simp [detect_voltage_sag], ?_, ?_, ?_⟩
  · rw [voltage_sag_count_eq, hcount]
  · intro h0
    have hfil : data.battery_voltage.filter (fun v => decide (v < (7.2 : ℚ))) = [] :=
      List.length_eq_zero.mp (by rw [← List.countP_eq_length_filter]; exact h0)
    rw [voltage_sag_min_eq]
    simp [detect_voltage_sag_eq, hfil, listMin]
  · intro hpos
    have hlen : 0 < (detect_voltage_sag data.battery_voltage 7.2).2.length := by
      rw [detect_voltage_sag_eq]
      rw [← List.countP_eq_length_filter]
      exact hpos
    obtain ⟨m, hm⟩ : ∃ m, listMin (detect_voltage_sag data.battery_voltage 7.2).2 = some m := by
      rcases hl : listMin (detect_voltage_sag data.battery_voltage 7.2).2 with _ | m
      · rw [listMin_eq_none_iff] at hl
        rw [hl] at hlen
        simp at hlen
      · exact ⟨m, rfl⟩
    have hmem := listMin_mem hm
    rw [detect_voltage_sag_eq] at hmem
    refine ⟨m, by rw [voltage_sag_min_eq, hm], (List.mem_filter.mp hmem).1, ?_, ?_⟩
    · have := (List.mem_filter.mp hmem).2
      simpa using this
    · intro v hv hv72
      have hvf : v ∈ (detect_voltage_sag data.battery_voltage 7.2).2 := by
        rw [detect_voltage_sag_eq]
        exact List.mem_filter.mpr ⟨hv, by simpa using hv72⟩
      exact listMin_le hm v hvf

/-- Witness for C5 at the concrete channel `[7, 8]` (one sag event, minimum
7). -/
theorem C5_witness :
    ∃ m : ℚ, (voltage_sag_report ⟨[7, 8], [], [], [], [[], [], [], []], [], []⟩).lookup
        "min_voltage" = some (PyVal.pyFloat m) ∧
      m ∈ [(7 : ℚ), 8] ∧ m < 7.2 ∧ ∀ v ∈ [(7 : ℚ), 8], v < 7.2 → m ≤ v := by
  have h := C5_voltage_sag_correct [7, 8] 7.2 ⟨[7, 8], [], [], [], [[], [], [], []], [], []⟩
  exact h.2.2.2.2 (by norm_num [List.countP, List.countP.go])

/-- Claim C10: in the `voltage_sag` and `vibration_spikes` reports of
`analyze_flight`, `detected` is true iff `count > 0`, the extremum field
(`min_voltage` resp. `max_vibration`) is `None` iff `count = 0`, and a
present `min_voltage` is strictly below the 7.2 sag threshold. -/
theorem C10_report_invariants (data : Telemetry) :
    (∀ n, (voltage_sag_report data).lookup "count" = some (PyVal.pyInt n) →
      (((voltage_sag_report data).lookup "detected" = some (PyVal.pyBool true)) ↔ 0 < n) ∧
      (((voltage_sag_report data).lookup "min_voltage" = some PyVal.pyNone) ↔ n = 0)) ∧
    (∀ n, (vibration_spikes_report data).lookup "count" = some (PyVal.pyInt n) →
      (((vibration_spikes_report data).lookup "detected" = some (PyVal.pyBool true)) ↔ 0 < n) ∧
      (((vibration_spikes_report data).lookup "max_vibration" = some PyVal.pyNone) ↔ n = 0)) ∧
    (∀ m : ℚ, (voltage_sag_report data).lookup "min_voltage" = some (PyVal.pyFloat m) →
      m < 7.2) := by
  refine ⟨?_, ?_, ?_⟩
  · intro n hn
    rw [voltage_sag_count_eq] at hn
    simp only [Option.some.injEq, PyVal.pyInt.injEq] at hn
    subst hn
    constructor
    · rw [voltage_sag_detected_eq]
      simp
    · rw [voltage_sag_min_eq]
      have hc : (detect_voltage_sag data.battery_voltage 7.2).1 =
          (detect_voltage_sag data.battery_voltage 7.2).2.length := by
        rw [detect_voltage_sag_eq]
      rcases hl : listMin (detect_voltage_sag data.battery_voltage 7.2).2 with _ | m
      · have hnil := listMin_eq_none_iff _ |>.mp hl
        simp [hc, hnil]
      · have hne : (detect_voltage_sag data.battery_voltage 7.2).2 ≠ [] := by
          intro he
          rw [he] at hl
          simp [listMin] at hl
        have hn0 : (detect_voltage_sag data.battery_voltage 7.2).1 ≠ 0 := by
          rw [hc]
          simpa [List.length_eq_zero] using hne
        simp [hn0]
  · intro n hn
    rw [vibration_count_eq] at hn
    simp only [Option.some.injEq, PyVal.pyInt.injEq] at hn
    subst hn
    constructor
    · rw [vibration_detected_eq]
      simp
    · rw [vibration_max_eq]
      have hc := detect_vibration_spikes_fst_eq_length data.vibration 3
      rcases hl : listMax (detect_vibration_spikes data.vibration 3).2 with _ | m
      · have hnil := listMax_eq_none_iff _ |>.mp hl
        simp [hc, hnil]
      · have hne : (detect_vibration_spikes data.vibration 3).2 ≠ [] := by
          intro he
          rw [he] at hl
          simp [listMax] at hl
        have hn0 : (detect_vibration_spikes data.vibration 3).1 ≠ 0 := by
          rw [hc]
          simpa [List.length_eq_zero] using hne
        simp [hn0]
  · intro m h
    rw [voltage_sag_min_eq] at h
    rcases hl : listMin (detect_voltage_sag data.battery_voltage 7.2).2 with _ | m'
    · rw [hl] at h
      simp at h
    · rw [hl] at h
      simp only [Option.some.injEq, PyVal.pyFloat.injEq] at h
      subst h
      have hmem := listMin_mem hl
      rw [detect_voltage_sag_eq] at hmem
      have := (List.mem_filter.mp hmem).2
      simpa using this

/-- Witness for C10 at the concrete telemetry with battery channel `[7, 8]`
(count 1, detected, minimum 7 < 7.2). -/
theorem C10_witness :
    (voltage_sag_report ⟨[7, 8], [], [], [], [[], [], [], []], [], []⟩).lookup "detected" =
      some (PyVal.pyBool true) ∧ (7 : ℚ) < 7.2 := by
  have h := C10_report_invariants ⟨[7, 8], [], [], [], [[], [], [], []], [], []⟩
  constructor
  · refine ((h.1 1 ?_).1).mpr (by norm_num)
    rw [voltage_sag_count_eq]
    norm_num [detect_voltage_sag, List.filter]
    simp
  · refine h.2.2 7 ?_
    rw [voltage_sag_min_eq]
    norm_num [detect_voltage_sag, List.filter, listMin]
    simp [listMin]

/-- Witness for C7 at the concrete input with exactly one populated motor
channel. -/
theorem C7_witness :
    (detect_motor_imbalance [[], [5], [], []] 15).1 = false ∧
    ((detect_motor_imbalance [[], [5], [], []] 15).2 = "No motor data available" ∨
      (detect_motor_imbalance [[], [5], [], []] 15).2 = "Insufficient motor data") :=
  C7_insufficient_motor_data [[], [5], [], []] 15 (by simp)

end DroneLog

